import Mathlib

/-
  Shallow embedding of the Gnuastro error-handling subsystem
  (lib/error.c, lib/gnuastro/error.h, lib/gnuastro/errorinprogram.h).

  A `gal_error_t *` chain is modelled as a `List gal_error_t` whose head is
  the top of the stack (the most recently pushed record).  A `char *` that
  may be NULL is modelled as `Option String`; the strings owned by a record
  are deep copies in C, so plain `String` values capture them exactly.
  The C `uint8_t` struct fields are modelled as `Nat` with a reduction
  mod 256 at the points where C narrows to `uint8_t` (the parameters of
  `gal_error_allocate`).  The 32-bit error identifiers are `Nat`; every
  value produced or consumed in the claims is below 2^32, so no separate
  truncation is needed.  Functions that print to stderr return the list of
  emitted lines; functions that may call `error(EXIT_FAILURE, ...)` or
  `exit(EXIT_FAILURE)` return an `Option` (`none` = process termination)
  or a `Bool` (`true` = process termination).
-/

/-- The record type `gal_error_t` from error.h: `code` (library-local error
code), `lib_code` (originating library), `type` (unused in error.c, zeroed
by calloc), `is_warning` (severity flag), `back_msg` (mandatory backend
message), `front_msg` (optional frontend message), plus the implicit `next`
link which the enclosing `List` provides. -/
structure gal_error_t where
  code : Nat
  lib_code : Nat
  type : Nat
  is_warning : Nat
  back_msg : String
  front_msg : Option String
deriving DecidableEq

/-- Result of `gal_error_bits_extract` (the three out-parameters). -/
structure gal_error_bits where
  lib_code : Nat
  code : Nat
  is_warning : Nat
deriving DecidableEq

/-- error.h line 80:
`#define GAL_ERROR_BITSET(lib_code, code, is_warning) ((lib_code << 16) | (code << 8) | is_warning)`.
No masking or clamping is applied to any of the three fields. -/
def GAL_ERROR_BITSET (lib_code code is_warning : Nat) : Nat :=
  (lib_code <<< 16) ||| (code <<< 8) ||| is_warning

/-- error.c `gal_error_bits_extract`: `is_warning` is 1 exactly when the
whole bitstring is odd; `code` is bits 8-15; `lib_code` is bits 16-23. -/
def gal_error_bits_extract (bitstring : Nat) : gal_error_bits :=
  { is_warning := if bitstring % 2 ≠ 0 then 1 else 0
    code := (bitstring >>> 8) &&& 255
    lib_code := (bitstring >>> 16) &&& 255 }

/-- error.c `gal_error_allocate`.  The C parameters are `uint8_t`, so a
caller's `int` narrows mod 256 at the call boundary; `calloc` zeroes
`type`, `front_msg` and `next`; `back_msg` is deep-copied.  (The
allocation-failure path terminates the process and is not modelled: it
cannot be reached in the embedding.) -/
def gal_error_allocate (lib_code code : Nat) (back_msg : String)
    (is_warning : Nat) : gal_error_t :=
  { code := code % 256
    lib_code := lib_code % 256
    type := 0
    is_warning := is_warning % 256
    back_msg := back_msg
    front_msg := none }

/-- error.c `gal_error_add_back_msg`: return unchanged when `back_msg` is
NULL, otherwise extract the fields from `bitstring`, allocate a record and
push it as the new head. -/
def gal_error_add_back_msg (err : List gal_error_t) (back_msg : Option String)
    (bitstring : Nat) : List gal_error_t :=
  match back_msg with
  | none => err
  | some msg =>
    let e := gal_error_bits_extract bitstring
    gal_error_allocate e.lib_code e.code msg e.is_warning :: err

/-- error.c `gal_error_add_front_msg`: no-op (`some err`) when the chain is
empty or `front_msg` is NULL; if the head already has a front message and
`replace` is 0, the process terminates via `error(EXIT_FAILURE, ...)`
(modelled as `none`); otherwise the head's front message is set/overwritten. -/
def gal_error_add_front_msg (err : List gal_error_t) (front_msg : Option String)
    (replace : Nat) : Option (List gal_error_t) :=
  match err with
  | [] => some err
  | h :: t =>
    match front_msg with
    | none => some (h :: t)
    | some m =>
      if h.front_msg.isSome ∧ replace = 0 then none
      else some ({ h with front_msg := some m } :: t)

/-- error.c `gal_error_print_lib_name`: the fixed switch over the
`gal_error_library_codes` enum of error.h.  The enum starts at
`GAL_ERROR_LIB_INVALID = 0` and counts up in declaration order, so
ARITHMETIC=1, ARRAY=2, BINARY=3, ..., WCS=41. -/
def gal_error_print_lib_name (lib_code : Nat) : String :=
  match lib_code with
  | 1 => "arithmetic.h"
  | 2 => "array.h"
  | 3 => "binary.h"
  | 4 => "blank.h"
  | 5 => "box.h"
  | 6 => "color.h"
  | 7 => "convolve.h"
  | 8 => "cosmology.h"
  | 9 => "data.h"
  | 10 => "dimension.h"
  | 11 => "ds9.h"
  | 12 => "eps.h"
  | 13 => "error.h"
  | 14 => "errorinprogram.h"
  | 15 => "fit.h"
  | 16 => "fits.h"
  | 17 => "git.h"
  | 18 => "interpolate.h"
  | 19 => "jpeg.h"
  | 20 => "kdtree.h"
  | 21 => "label.h"
  | 22 => "list.h"
  | 23 => "match.h"
  | 24 => "pdf.h"
  | 25 => "permutation.h"
  | 26 => "pointer.h"
  | 27 => "polygon.h"
  | 28 => "pool.h"
  | 29 => "python.h"
  | 30 => "qsort.h"
  | 31 => "speclines.h"
  | 32 => "statistics.h"
  | 33 => "table.h"
  | 34 => "threads.h"
  | 35 => "tiff.h"
  | 36 => "tile.h"
  | 37 => "txt.h"
  | 38 => "type.h"
  | 39 => "units.h"
  | 40 => "warp.h"
  | 41 => "wcs.h"
  | _ => "NOT-DEFINED! A bug! Please contact us at bug-gnuastro@gnu.org"

/-- error.c `gal_error_to_string`: status tag from `is_warning`, then the
front message (when present), library name, decimal code, back message and
status, separated exactly as in the two `asprintf` format strings. -/
def gal_error_to_string (err : gal_error_t) (verbose : Nat) : String :=
  let stat := if err.is_warning = 0 then "[BREAKING]" else "[WARNING]"
  match err.front_msg with
  | some f =>
    f ++ ": " ++ gal_error_print_lib_name err.lib_code ++ ": "
      ++ toString err.code ++ ": " ++ err.back_msg ++ " " ++ stat
  | none =>
    gal_error_print_lib_name err.lib_code ++ ": "
      ++ toString err.code ++ ": " ++ err.back_msg ++ " " ++ stat

/-- The loop of error.c `gal_error_to_stderr_all`.  Faithful to the source:
the loop variable `tmperr` walks the chain, but the severity test on each
iteration reads `err->is_warning` (the ORIGINAL HEAD, carried here as
`head`), not `tmperr->is_warning`.  Returns the critical count and the
emitted lines (one per record, head to tail). -/
def gal_error_to_stderr_loop (head : gal_error_t) (verbose : Nat) :
    List gal_error_t → Nat × List String
  | [] => (0, [])
  | tmperr :: rest =>
    let r := gal_error_to_stderr_loop head verbose rest
    ((if head.is_warning = 0 then 1 else 0) + r.1,
      gal_error_to_string tmperr verbose :: r.2)

/-- error.c `gal_error_to_stderr_all`: 0 and no output on an empty chain;
otherwise run the loop over the whole chain starting at the head. -/
def gal_error_to_stderr_all (err : List gal_error_t) (verbose : Nat) :
    Nat × List String :=
  match err with
  | [] => (0, [])
  | head :: rest => gal_error_to_stderr_loop head verbose (head :: rest)

/-- error.c `gal_error_occurred`: 0 when the chain is empty or the head is a
warning, 1 otherwise. -/
def gal_error_occurred (err : List gal_error_t) : Nat :=
  match err with
  | [] => 0
  | h :: _ => if h.is_warning ≠ 0 then 0 else 1

/-- The while-loop of error.c `gal_error_reverse`: pop each node, rebuild its
bitstring as `(((lib_code << 8) | code) << 8) | is_warning`, and push a
fresh record (plus the node's front message) onto `correctorder`.  The
`add_front` call can never hit the fatal branch (the just-pushed head has
no front message), so `getD` only names the reachable branch. -/
def gal_error_reverse_loop :
    List gal_error_t → List gal_error_t → List gal_error_t
  | [], correctorder => correctorder
  | node :: rest, correctorder =>
    let bitstring := (((node.lib_code <<< 8) ||| node.code) <<< 8)
                       ||| node.is_warning
    let acc2 := gal_error_add_back_msg correctorder (some node.back_msg)
                  bitstring
    let acc3 := (gal_error_add_front_msg acc2 node.front_msg 0).getD acc2
    gal_error_reverse_loop rest acc3

/-- error.c `gal_error_reverse`: nothing happens on an empty chain, and the
reversal loop only runs when there is more than one element. -/
def gal_error_reverse (err : List gal_error_t) : List gal_error_t :=
  match err with
  | [] => err
  | [_] => err
  | _ :: _ :: _ => gal_error_reverse_loop err []

/-- The scan loop of error.c `gal_error_check`: return 1 on the first record
whose `code` equals the decoded code, 0 when the chain is exhausted. -/
def gal_error_check_loop (code : Nat) : List gal_error_t → Nat
  | [] => 0
  | tmperr :: rest =>
    if tmperr.code = code then 1 else gal_error_check_loop code rest

/-- error.c `gal_error_check`: extract the fields of `bitstring` and scan
the chain comparing only the `code` field (the extracted `lib_code` and
`is_warning` are never consulted). -/
def gal_error_check (err : List gal_error_t) (bitstring : Nat) : Nat :=
  gal_error_check_loop (gal_error_bits_extract bitstring).code err

/-- Modelled from the spec: `gal_error_print` is code of this repository
that is not under src/ (only its caller `gal_errorinprogram` in
errorinprogram.h is).  Spec section 4.5 says the boundary guard "invokes
`print_all`" — i.e. `gal_error_to_stderr_all` — and acts on the returned
critical count, so `gal_error_print` is modelled as
`gal_error_to_stderr_all` at its default verbosity. -/
def gal_error_print (error : List gal_error_t) : Nat × List String :=
  gal_error_to_stderr_all error 0

/-- errorinprogram.h `gal_errorinprogram`: calls `exit(EXIT_FAILURE)` when
`gal_error_print` returns nonzero.  The result `true` means the process
terminates with a failure status; `false` means a normal return. -/
def gal_errorinprogram (error : List gal_error_t) : Bool :=
  (gal_error_print error).1 != 0

/-- Proof helper: the record that one iteration of `gal_error_reverse_loop`
pushes for a visited node: the node's fields sent through the
repack-then-extract round trip, with the back and front messages carried
over unchanged. -/
def renode (e : gal_error_t) : gal_error_t :=
  let x := gal_error_bits_extract
    ((((e.lib_code <<< 8) ||| e.code) <<< 8) ||| e.is_warning)
  { code := x.code % 256
    lib_code := x.lib_code % 256
    type := 0
    is_warning := x.is_warning % 256
    back_msg := e.back_msg
    front_msg := e.front_msg }

/-- The shape every record built by `gal_error_add_back_msg` has: `uint8_t`
fields, a severity flag that is 0 or 1 (it comes out of
`gal_error_bits_extract`), and a zeroed `type` (from `calloc`). -/
def pushed_record (e : gal_error_t) : Prop :=
  e.lib_code ≤ 255 ∧ e.code ≤ 255 ∧ e.is_warning ≤ 1 ∧ e.type = 0

theorem shiftLeft_lor_eq_add (a b n : Nat) (h : b < 2 ^ n) :
    (a <<< n) ||| b = a * 2 ^ n + b := by
  rw [Nat.shiftLeft_eq, Nat.mul_comm a (2 ^ n), ← Nat.mul_add_lt_is_or h a]

theorem GAL_ERROR_BITSET_eq_add (lib code warn : Nat)
    (hc : code ≤ 255) (hw : warn ≤ 255) :
    GAL_ERROR_BITSET lib code warn = lib * 65536 + code * 256 + warn := by
  have h1 : code <<< 8 = code * 256 := by rw [Nat.shiftLeft_eq]
  have h2 : (lib <<< 16) ||| (code <<< 8) = lib * 65536 + code * 256 := by
    rw [shiftLeft_lor_eq_add lib (code <<< 8) 16 (by rw [h1]; norm_num; omega)]
    rw [h1]; norm_num
  have h3 : lib * 65536 + code * 256 = (lib * 256 + code) <<< 8 := by
    rw [Nat.shiftLeft_eq]; ring_nf
  calc GAL_ERROR_BITSET lib code warn
      = ((lib * 256 + code) <<< 8) ||| warn := by
        unfold GAL_ERROR_BITSET; rw [h2, h3]
    _ = (lib * 256 + code) * 2 ^ 8 + warn :=
        shiftLeft_lor_eq_add _ warn 8 (by norm_num; omega)
    _ = lib * 65536 + code * 256 + warn := by ring

theorem repack_eq_add (lib code warn : Nat) (hc : code ≤ 255) (hw : warn ≤ 255) :
    (((lib <<< 8) ||| code) <<< 8) ||| warn = lib * 65536 + code * 256 + warn := by
  rw [shiftLeft_lor_eq_add lib code 8 (by norm_num; omega)]
  rw [shiftLeft_lor_eq_add _ warn 8 (by norm_num; omega)]
  ring

theorem extract_code_arith (N : Nat) :
    (gal_error_bits_extract N).code = (N / 256) % 256 := by
  show (N >>> 8) &&& 255 = _
  rw [Nat.shiftRight_eq_div_pow, show (255 : Nat) = 2 ^ 8 - 1 from rfl,
    Nat.and_pow_two_sub_one_eq_mod]

theorem extract_lib_arith (N : Nat) :
    (gal_error_bits_extract N).lib_code = (N / 65536) % 256 := by
  show (N >>> 16) &&& 255 = _
  rw [Nat.shiftRight_eq_div_pow, show (255 : Nat) = 2 ^ 8 - 1 from rfl,
    Nat.and_pow_two_sub_one_eq_mod]

theorem extract_warn_eq_mod (N : Nat) :
    (gal_error_bits_extract N).is_warning = N % 2 := by
  show (if N % 2 ≠ 0 then 1 else 0) = N % 2
  rcases Nat.mod_two_eq_zero_or_one N with h | h <;> simp [h]

theorem lor_shiftLeft8_mod_two (x w : Nat) : ((x <<< 8) ||| w) % 2 = w % 2 := by
  have hx : (x <<< 8) % 2 = 0 := by
    rw [Nat.shiftLeft_eq]; norm_num; omega
  have h := Nat.testBit_lor (x <<< 8) w 0
  rw [Nat.testBit_zero, Nat.testBit_zero, Nat.testBit_zero] at h
  have h2 := congrArg (· = true) h
  simp only [Bool.or_eq_true, decide_eq_true_eq] at h2
  rw [hx] at h2
  have h3 : ((x <<< 8 ||| w) % 2 = 1) ↔ (w % 2 = 1) := by rw [h2]; omega
  omega

theorem gal_error_bits_ext (x y : gal_error_bits) (h1 : x.lib_code = y.lib_code)
    (h2 : x.code = y.code) (h3 : x.is_warning = y.is_warning) : x = y := by
  cases x; cases y; simp_all

theorem extract_of_add (lib code warn : Nat) (hl : lib ≤ 255) (hc : code ≤ 255)
    (hw : warn ≤ 255) :
    gal_error_bits_extract (lib * 65536 + code * 256 + warn)
      = ⟨lib, code, warn % 2⟩ := by
  apply gal_error_bits_ext
  · rw [extract_lib_arith]; show _ = lib; omega
  · rw [extract_code_arith]; show _ = code; omega
  · rw [extract_warn_eq_mod]; show _ = warn % 2; omega

theorem extract_bounds (bs : Nat) :
    (gal_error_bits_extract bs).lib_code ≤ 255 ∧
    (gal_error_bits_extract bs).code ≤ 255 ∧
    (gal_error_bits_extract bs).is_warning ≤ 1 := by
  refine ⟨?_, ?_, ?_⟩
  · show (bs >>> 16) &&& 255 ≤ 255; exact Nat.and_le_right
  · show (bs >>> 8) &&& 255 ≤ 255; exact Nat.and_le_right
  · show (if bs % 2 ≠ 0 then 1 else 0) ≤ 1; split <;> omega

theorem reverse_step_eq (n : gal_error_t) (acc : List gal_error_t) :
    (gal_error_add_front_msg
        (gal_error_add_back_msg acc (some n.back_msg)
          ((((n.lib_code <<< 8) ||| n.code) <<< 8) ||| n.is_warning))
        n.front_msg 0).getD
      (gal_error_add_back_msg acc (some n.back_msg)
        ((((n.lib_code <<< 8) ||| n.code) <<< 8) ||| n.is_warning))
    = renode n :: acc := by
  cases hf : n.front_msg <;>
    simp [gal_error_add_back_msg, gal_error_add_front_msg, gal_error_allocate,
      renode, hf]

theorem gal_error_reverse_loop_eq (l acc : List gal_error_t) :
    gal_error_reverse_loop l acc = (l.map renode).reverse ++ acc := by
  induction l generalizing acc with
  | nil => rfl
  | cons n rest ih =>
    show gal_error_reverse_loop rest _ = _
    rw [reverse_step_eq n acc, ih]
    simp

theorem renode_is_warning (e : gal_error_t) :
    (renode e).is_warning = e.is_warning % 2 := by
  show (gal_error_bits_extract _).is_warning % 256 = _
  rw [extract_warn_eq_mod, lor_shiftLeft8_mod_two]
  omega

theorem renode_eq_self (e : gal_error_t) (h : pushed_record e) : renode e = e := by
  obtain ⟨code, lib_code, type, is_warning, back_msg, front_msg⟩ := e
  obtain ⟨hl, hc, hw, ht⟩ := h
  simp only at hl hc hw ht
  subst ht
  simp only [renode]
  rw [repack_eq_add lib_code code is_warning hc (by omega)]
  rw [extract_of_add lib_code code is_warning hl hc (by omega)]
  simp [gal_error_t.mk.injEq]
  omega

theorem add_back_msg_head_shape (err : List gal_error_t) (m : String) (bs : Nat) :
    ∃ h, gal_error_add_back_msg err (some m) bs = h :: err ∧ pushed_record h := by
  refine ⟨_, rfl, ?_, ?_, ?_, rfl⟩
  · show (gal_error_bits_extract bs).lib_code % 256 ≤ 255; omega
  · show (gal_error_bits_extract bs).code % 256 ≤ 255; omega
  · show (gal_error_bits_extract bs).is_warning % 256 ≤ 1
    have := (extract_bounds bs).2.2
    omega

/-- C1: the claim says `gal_error_to_stderr_all` returns the number of
records whose own `is_warning` is 0, testing each record individually (2 on
a chain of two critical records and one warning).  The loop in error.c
(line 150) instead tests `err->is_warning` — the head — on every iteration,
so on the chain below (head critical, then critical, then warning) it
returns 3, the chain length, while only 2 records are individually
critical; it does emit exactly 3 lines, and returns 0 with no output on the
empty chain. -/
theorem gal_error_to_stderr_all_head_bug :
    gal_error_to_stderr_all [] 0 = (0, []) ∧
    (gal_error_to_stderr_all
        [⟨5, 1, 0, 0, "e1", none⟩, ⟨6, 1, 0, 0, "e2", none⟩,
         ⟨7, 1, 0, 1, "w1", none⟩] 0).1 = 3 ∧
    (gal_error_to_stderr_all
        [⟨5, 1, 0, 0, "e1", none⟩, ⟨6, 1, 0, 0, "e2", none⟩,
         ⟨7, 1, 0, 1, "w1", none⟩] 0).2.length = 3 ∧
    List.countP (fun (e : gal_error_t) => e.is_warning == 0)
        [⟨5, 1, 0, 0, "e1", none⟩, ⟨6, 1, 0, 0, "e2", none⟩,
         ⟨7, 1, 0, 1, "w1", none⟩] = 2 := by
  decide

/-- C2: the claim says `gal_errorinprogram` terminates the process iff the
chain contains at least one non-warning record.  Because
`gal_error_to_stderr_all` tests only the head's severity (error.c line
150), the chain below — a warning at the head hiding a critical record —
yields a critical count of 0 and `gal_errorinprogram` returns normally,
contradicting the claim. -/
theorem gal_errorinprogram_head_bug :
    gal_errorinprogram
        [⟨7, 1, 0, 1, "w1", none⟩, ⟨5, 1, 0, 0, "e1", none⟩] = false ∧
    (⟨5, 1, 0, 0, "e1", none⟩ : gal_error_t) ∈
        [⟨7, 1, 0, 1, "w1", none⟩, ⟨5, 1, 0, 0, "e1", none⟩] ∧
    (⟨5, 1, 0, 0, "e1", none⟩ : gal_error_t).is_warning = 0 := by
  decide

/-- C3 counterexample: `GAL_ERROR_BITSET` applies no clamping.  Encoding
with `lib_code = 0` and the out-of-range `code = 256` yields 65536, whose
decoded `lib_code` is 1, not 0: the out-of-range `code` corrupted the
neighbouring `lib_code` field, which any clamping of `code` to [0,255]
would have prevented. -/
theorem GAL_ERROR_BITSET_unclamped_counterexample :
    GAL_ERROR_BITSET 0 256 0 = 65536 ∧
    (gal_error_bits_extract (GAL_ERROR_BITSET 0 256 0)).lib_code = 1 ∧
    (gal_error_bits_extract (GAL_ERROR_BITSET 0 256 0)).lib_code ≠ 0 := by
  decide

/-- C3 amended: `GAL_ERROR_BITSET` performs no clamping; it is exactly
`(lib_code << 16) | (code << 8) | is_warning`, so the three fields land at
bits 16-23, 8-15 and 0-7 respectively whenever each INPUT is already in
[0,255] (out-of-range inputs spill into the neighbouring fields). -/
theorem GAL_ERROR_BITSET_in_range_placement (lib code warn : Nat)
    (_hl : lib ≤ 255) (hc : code ≤ 255) (hw : warn ≤ 255) :
    GAL_ERROR_BITSET lib code warn = lib * 65536 + code * 256 + warn ∧
    GAL_ERROR_BITSET lib code warn / 65536 = lib ∧
    GAL_ERROR_BITSET lib code warn / 256 % 256 = code ∧
    GAL_ERROR_BITSET lib code warn % 256 = warn := by
  rw [GAL_ERROR_BITSET_eq_add lib code warn hc hw]
  refine ⟨rfl, ?_, ?_, ?_⟩ <;> omega

/-- Witness for the amended C3 theorem at lib_code 2, code 7, is_warning 1. -/
theorem GAL_ERROR_BITSET_in_range_placement_witness :
    GAL_ERROR_BITSET 2 7 1 = 2 * 65536 + 7 * 256 + 1 ∧
    GAL_ERROR_BITSET 2 7 1 / 65536 = 2 ∧
    GAL_ERROR_BITSET 2 7 1 / 256 % 256 = 7 ∧
    GAL_ERROR_BITSET 2 7 1 % 256 = 1 :=
  GAL_ERROR_BITSET_in_range_placement 2 7 1 (by decide) (by decide) (by decide)

/-- C4: `gal_error_add_back_msg` with a NULL message is a no-op leaving the
chain (and so its length) unchanged; with a message it pushes, as the new
head, a record carrying exactly the fields decoded from the bitstring, the
message as back message, and no front message (LIFO). -/
theorem gal_error_add_back_msg_spec (err : List gal_error_t) (bs : Nat)
    (m : String) :
    gal_error_add_back_msg err none bs = err ∧
    (gal_error_add_back_msg err none bs).length = err.length ∧
    gal_error_add_back_msg err (some m) bs =
      { code := (gal_error_bits_extract bs).code
        lib_code := (gal_error_bits_extract bs).lib_code
        type := 0
        is_warning := (gal_error_bits_extract bs).is_warning
        back_msg := m
        front_msg := none } :: err := by
  refine ⟨rfl, rfl, ?_⟩
  show gal_error_allocate _ _ _ _ :: err = _
  unfold gal_error_allocate
  have h := extract_bounds bs
  simp [gal_error_t.mk.injEq]
  omega

/-- C5: for `lib_code`, `code` and `is_warning` all within the 8-bit field
range, decoding the encoded identifier returns the same `lib_code` and
`code`, and an `is_warning` equal to 1 exactly when the encoded value is
odd (equivalently, the parity of the `is_warning` input — so encoding with
`is_warning = 2` decodes as not a warning, see the witness). -/
theorem decode_encode_roundtrip (lib code warn : Nat)
    (hl : lib ≤ 255) (hc : code ≤ 255) (hw : warn ≤ 255) :
    (gal_error_bits_extract (GAL_ERROR_BITSET lib code warn)).lib_code = lib ∧
    (gal_error_bits_extract (GAL_ERROR_BITSET lib code warn)).code = code ∧
    ((gal_error_bits_extract (GAL_ERROR_BITSET lib code warn)).is_warning = 1
      ↔ GAL_ERROR_BITSET lib code warn % 2 = 1) ∧
    (gal_error_bits_extract (GAL_ERROR_BITSET lib code warn)).is_warning
      = warn % 2 := by
  rw [GAL_ERROR_BITSET_eq_add lib code warn hc hw,
    extract_of_add lib code warn hl hc hw]
  refine ⟨rfl, rfl, ?_, rfl⟩
  show warn % 2 = 1 ↔ (lib * 65536 + code * 256 + warn) % 2 = 1
  omega

/-- Witness for C5 at lib_code 3, code 5, is_warning 2: the even non-zero
severity decodes as 0 (not a warning). -/
theorem decode_encode_roundtrip_witness :
    (gal_error_bits_extract (GAL_ERROR_BITSET 3 5 2)).lib_code = 3 ∧
    (gal_error_bits_extract (GAL_ERROR_BITSET 3 5 2)).code = 5 ∧
    ((gal_error_bits_extract (GAL_ERROR_BITSET 3 5 2)).is_warning = 1
      ↔ GAL_ERROR_BITSET 3 5 2 % 2 = 1) ∧
    (gal_error_bits_extract (GAL_ERROR_BITSET 3 5 2)).is_warning = 2 % 2 :=
  decode_encode_roundtrip 3 5 2 (by decide) (by decide) (by decide)

theorem check_loop_eq_one_iff (code : Nat) (l : List gal_error_t) :
    gal_error_check_loop code l = 1 ↔ ∃ e ∈ l, e.code = code := by
  induction l with
  | nil => simp [gal_error_check_loop]
  | cons h t ih =>
    by_cases hc : h.code = code <;> simp [gal_error_check_loop, hc, ih]

/-- C6: pushing records A, then B, then C (head C) and reversing yields head
A and tail C with every field of every node (`code`, `lib_code`,
`is_warning`, `back_msg`, `front_msg`) preserved; reverse is a no-op on
chains of length 0 and 1.  The hypotheses state exactly the shape every
record built by the push entry point `gal_error_add_back_msg` has (see
`add_back_msg_head_shape`): 8-bit `lib_code` and `code`, a 0/1 severity
flag, and a zeroed `type`. -/
theorem gal_error_reverse_three (A B C : gal_error_t)
    (hA : pushed_record A) (hB : pushed_record B) (hC : pushed_record C) :
    gal_error_reverse [C, B, A] = [A, B, C] ∧
    gal_error_reverse ([] : List gal_error_t) = [] ∧
    ∀ e : gal_error_t, gal_error_reverse [e] = [e] := by
  refine ⟨?_, rfl, fun e => rfl⟩
  show gal_error_reverse_loop [C, B, A] [] = [A, B, C]
  rw [gal_error_reverse_loop_eq]
  simp [renode_eq_self A hA, renode_eq_self B hB, renode_eq_self C hC]

/-- Witness for C6 on three concrete pushed-shaped records, two of them
carrying front messages. -/
theorem gal_error_reverse_three_witness :
    gal_error_reverse
        [⟨9, 4, 0, 1, "cc", some "fc"⟩, ⟨8, 3, 0, 0, "bb", none⟩,
         ⟨7, 2, 0, 1, "aa", some "fa"⟩]
      = [⟨7, 2, 0, 1, "aa", some "fa"⟩, ⟨8, 3, 0, 0, "bb", none⟩,
         ⟨9, 4, 0, 1, "cc", some "fc"⟩] :=
  (gal_error_reverse_three ⟨7, 2, 0, 1, "aa", some "fa"⟩
    ⟨8, 3, 0, 0, "bb", none⟩ ⟨9, 4, 0, 1, "cc", some "fc"⟩
    ⟨by decide, by decide, by decide, rfl⟩
    ⟨by decide, by decide, by decide, rfl⟩
    ⟨by decide, by decide, by decide, rfl⟩).1

/-- C7: `gal_error_check` returns 1 exactly when some record's `code` field
equals bits 8-15 of the bitstring — the record's `lib_code` and severity
are never consulted; in particular a record pushed with
`GAL_ERROR_BITSET 1 5 0` is found by a bitstring built from
`GAL_ERROR_BITSET 99 5 1`. -/
theorem gal_error_check_spec (err : List gal_error_t) (bs : Nat) :
    (gal_error_check err bs = 1 ↔
      ∃ e ∈ err, e.code = (gal_error_bits_extract bs).code) ∧
    gal_error_check
        (gal_error_add_back_msg [] (some "m") (GAL_ERROR_BITSET 1 5 0))
        (GAL_ERROR_BITSET 99 5 1) = 1 :=
  ⟨check_loop_eq_one_iff _ err, by decide⟩

/-- C8: `gal_error_add_front_msg` is a no-op on an empty chain and on a NULL
message; when the head already carries a front message and the replace flag
is 0 the process terminates (modelled `none`); with a nonzero replace flag
the head's front message is overwritten. -/
theorem gal_error_add_front_msg_spec :
    (∀ (m : Option String) (r : Nat),
        gal_error_add_front_msg [] m r = some []) ∧
    (∀ (c : List gal_error_t) (r : Nat),
        gal_error_add_front_msg c none r = some c) ∧
    (∀ (h : gal_error_t) (t : List gal_error_t) (f m : String),
        h.front_msg = some f →
        gal_error_add_front_msg (h :: t) (some m) 0 = none) ∧
    (∀ (h : gal_error_t) (t : List gal_error_t) (m : String) (r : Nat),
        r ≠ 0 →
        gal_error_add_front_msg (h :: t) (some m) r
          = some ({ h with front_msg := some m } :: t)) := by
  refine ⟨fun m r => rfl, fun c r => ?_, fun h t f m hf => ?_,
    fun h t m r hr => ?_⟩
  · cases c <;> rfl
  · simp [gal_error_add_front_msg, hf]
  · simp [gal_error_add_front_msg, hr]

/-- Witness for C8: a second front message without replace is fatal; with
replace it overwrites. -/
theorem gal_error_add_front_msg_spec_witness :
    gal_error_add_front_msg [⟨1, 1, 0, 0, "b", some "old"⟩]
        (some "new") 0 = none ∧
    gal_error_add_front_msg [⟨1, 1, 0, 0, "b", some "old"⟩]
        (some "new") 1 = some [⟨1, 1, 0, 0, "b", some "new"⟩] :=
  ⟨gal_error_add_front_msg_spec.2.2.1 ⟨1, 1, 0, 0, "b", some "old"⟩ []
      "old" "new" rfl,
    gal_error_add_front_msg_spec.2.2.2 ⟨1, 1, 0, 0, "b", some "old"⟩ []
      "new" 1 (by decide)⟩

/-- C9: `gal_error_to_string` renders "front: libname: code: back STATUS"
when a front message exists and "libname: code: back STATUS" otherwise,
where STATUS is [BREAKING] exactly when `is_warning` is 0 and [WARNING]
otherwise; pushing back message "division by zero" with
`GAL_ERROR_BITSET 3 5 0` and then front message "compute_ratio" renders
with the name of library 3 (binary.h) as in the last conjunct. -/
theorem gal_error_to_string_spec :
    (∀ (e : gal_error_t) (v : Nat), e.front_msg = none →
      gal_error_to_string e v
        = gal_error_print_lib_name e.lib_code ++ ": " ++ toString e.code
            ++ ": " ++ e.back_msg ++ " "
            ++ (if e.is_warning = 0 then "[BREAKING]" else "[WARNING]")) ∧
    (∀ (e : gal_error_t) (v : Nat) (f : String), e.front_msg = some f →
      gal_error_to_string e v
        = f ++ ": " ++ gal_error_print_lib_name e.lib_code ++ ": "
            ++ toString e.code ++ ": " ++ e.back_msg ++ " "
            ++ (if e.is_warning = 0 then "[BREAKING]" else "[WARNING]")) ∧
    (gal_error_add_front_msg
        (gal_error_add_back_msg [] (some "division by zero")
          (GAL_ERROR_BITSET 3 5 0))
        (some "compute_ratio") 0).map
        (List.map (fun e => gal_error_to_string e 0))
      = some ["compute_ratio: binary.h: 5: division by zero [BREAKING]"] := by
  refine ⟨fun e v hf => ?_, fun e v f hf => ?_, by decide⟩
  · simp [gal_error_to_string, hf]
  · simp [gal_error_to_string, hf]

/-- Witness for C9 on a concrete critical record with a front message. -/
theorem gal_error_to_string_spec_witness :
    gal_error_to_string
        ⟨5, 3, 0, 0, "division by zero", some "compute_ratio"⟩ 0
      = "compute_ratio: binary.h: 5: division by zero [BREAKING]" :=
  (gal_error_to_string_spec.2.1
    ⟨5, 3, 0, 0, "division by zero", some "compute_ratio"⟩ 0
    "compute_ratio" rfl).trans (by decide)

/-- C10: after `gal_error_reverse` on a chain of length at least 2, the
severity of each resulting record is the parity (mod 2) of the
corresponding original record's `is_warning` — hence always 0 or 1, even
when an original record stored a severity outside 0/1: the reversal
normalises severities as a side effect of re-encoding each node through
the bitstring codec. -/
theorem gal_error_reverse_normalizes (c : List gal_error_t)
    (hlen : 2 ≤ c.length) :
    (gal_error_reverse c).map (fun e => e.is_warning)
      = (c.map (fun e => e.is_warning % 2)).reverse ∧
    ∀ e ∈ gal_error_reverse c, e.is_warning = 0 ∨ e.is_warning = 1 := by
  rcases c with _ | ⟨a, c2⟩
  · simp at hlen
  rcases c2 with _ | ⟨b, rest⟩
  · simp at hlen
  have hrev : gal_error_reverse (a :: b :: rest)
      = ((a :: b :: rest).map renode).reverse := by
    show gal_error_reverse_loop (a :: b :: rest) [] = _
    rw [gal_error_reverse_loop_eq]
    simp
  constructor
  · rw [hrev, List.map_reverse, List.map_map]
    have hfun : ((fun (e : gal_error_t) => e.is_warning) ∘ renode)
        = fun (e : gal_error_t) => e.is_warning % 2 :=
      funext renode_is_warning
    rw [hfun]
  · intro e he
    rw [hrev] at he
    simp only [List.mem_reverse, List.mem_map] at he
    obtain ⟨o, _, rfl⟩ := he
    rw [renode_is_warning]
    omega

/-- Witness for C10: a two-record chain whose head stores the out-of-range
severity 2, which the reversal normalises to 0. -/
theorem gal_error_reverse_normalizes_witness :
    (gal_error_reverse
        [⟨0, 0, 0, 2, "a", none⟩, ⟨0, 0, 0, 1, "b", none⟩]).map
        (fun e => e.is_warning)
      = (([⟨0, 0, 0, 2, "a", none⟩, ⟨0, 0, 0, 1, "b", none⟩]
            : List gal_error_t).map
          (fun e => e.is_warning % 2)).reverse ∧
    ∀ e ∈ gal_error_reverse
        [⟨0, 0, 0, 2, "a", none⟩, ⟨0, 0, 0, 1, "b", none⟩],
      e.is_warning = 0 ∨ e.is_warning = 1 :=
  gal_error_reverse_normalizes
    [⟨0, 0, 0, 2, "a", none⟩, ⟨0, 0, 0, 1, "b", none⟩] (by decide)
